import Mathlib

/-!
Verification development for the `mcp_s3_server` repository: a shallow
embedding of the tool registry, the dispatcher (`call_tool` in
`server_main.py`) and the two storage-touching handlers
(`list_objects_tool` in `tools/list_object_tool.py`,
`download_file_tool` in `tools/download_file_tool.py`), together with
theorems checking the natural-language specification against it.

Modelling conventions:
* Python strings are `String`; a value that may be `None` is `Option _`.
* Python truthiness of an optional string (`if not x:`) is `pyFalsy`.
* The storage SDK is a parameter: each handler receives a function from
  the request parameters it would send to the outcome the SDK produces
  (success payload or one of the exception kinds the handler catches).
* Every handler returns the list of text contents it produces together
  with a trace of the storage-client events it performed (session
  creation, client creation, the single backend call), so that claims
  about "zero network calls" and "exactly one backend call" are
  statements about the trace.
* Python float formatting `f"x:.1f"` on `size / 2^k` is modelled as
  exact rational rounding to one decimal digit, ties to even; for sizes
  below 2^53 the binary double `size / 2^k` is exact, so this is the
  exact behaviour of the source.
-/

namespace McpS3

/-- Python truthiness test `not x` for an optional string:
true when the value is absent (`None`) or the empty string. -/
def pyFalsy : Option String → Bool
  | none => true
  | some s => s == ""

/-- `os.path.basename` for `/`-separated paths (posix semantics, as used
on S3 object keys): everything after the last `/`, computed by a fold
that restarts the accumulator at each separator. -/
def osPathBasename (p : String) : String :=
  ⟨p.data.foldl (fun acc c => if c = '/' then [] else acc ++ [c]) []⟩

/-- `os.path.join a b` for the cases exercised here: if `b` is absolute
(starts with `/`) it replaces `a`, otherwise it is appended with a `/`
separator. -/
def osPathJoin (a b : String) : String :=
  if b.data.head? = some '/' then b else a ++ "/" ++ b

/-- Rounding of the exact rational `num / den` to one decimal digit,
ties to even: the semantics of Python `f"num/den:.1f"` whenever the
float `num / den` is exact (true for `den` a power of two and
`num < 2^53`). Returns the decimal string `⟨int part⟩.⟨digit⟩`. -/
def fmtOneDecimal (num den : Nat) : String :=
  let t := num * 10
  let q := t / den
  let r := t % den
  let q := if den < 2 * r then q + 1
           else if 2 * r < den then q
           else if q % 2 = 1 then q + 1 else q
  toString (q / 10) ++ "." ++ toString (q % 10)

/-- The human-readable size formatter of `list_object_tool.py`
(lines 85–93). -/
def formatSizeList (size : Nat) : String :=
  if size < 1024 then toString size ++ " B"
  else if size < 1024 * 1024 then fmtOneDecimal size 1024 ++ " KB"
  else if size < 1024 * 1024 * 1024 then fmtOneDecimal size (1024 * 1024) ++ " MB"
  else fmtOneDecimal size (1024 * 1024 * 1024) ++ " GB"

/-- The human-readable size formatter of `download_file_tool.py`
(lines 78–86); textually identical code to the one in the list tool. -/
def formatSizeDownload (size : Nat) : String :=
  if size < 1024 then toString size ++ " B"
  else if size < 1024 * 1024 then fmtOneDecimal size 1024 ++ " KB"
  else if size < 1024 * 1024 * 1024 then fmtOneDecimal size (1024 * 1024) ++ " MB"
  else fmtOneDecimal size (1024 * 1024 * 1024) ++ " GB"

/-- The size formula as the specification states it: `n B` below 1024,
`n/1024` to one decimal as `KB` below 1024², `MB` below 1024³,
otherwise `GB`. -/
def formatSizeSpec (size : Nat) : String :=
  if size < 1024 then toString size ++ " B"
  else if size < 1024 ^ 2 then fmtOneDecimal size 1024 ++ " KB"
  else if size < 1024 ^ 3 then fmtOneDecimal size (1024 ^ 2) ++ " MB"
  else fmtOneDecimal size (1024 ^ 3) ++ " GB"

/-- Local-filename resolution of `download_file_tool.py` lines 46–50:
`if not local_filename: local_filename = os.path.basename(object_key)`;
`if not local_filename: local_filename = "downloaded_file"`. -/
def resolveLocalFilename (local_filename : Option String) (object_key : String) : String :=
  let lf := if pyFalsy local_filename then some (osPathBasename object_key)
            else local_filename
  let lf := if pyFalsy lf then some "downloaded_file" else lf
  lf.getD ""

/-- The RPC text envelope `types.TextContent(type="text", text=...)`. -/
structure TextContent where
  type : String
  text : String
deriving Repr, DecidableEq

/-- Modelled from the spec: `S3Config` lives in `mcp_s3_server/config.py`,
which is not among the provided sources. Spec §3: access key, secret key,
region (defaulted), optional custom endpoint URL, immutable; §2 exposes
`isConfigured()` and `serviceName()`. `service_name` stands for the
display name `get_service_name()` returns. -/
structure S3Config where
  access_key : String
  secret_key : String
  region : String
  endpoint_url : Option String
  service_name : String
deriving Repr, DecidableEq

/-- Modelled from the spec: invariant of §3, `isConfigured()` is true iff
both access key and secret key are non-empty. -/
def S3Config.is_configured (c : S3Config) : Bool :=
  (c.access_key != "") && (c.secret_key != "")

/-- Modelled from the spec: the storage service display name. -/
def S3Config.get_service_name (c : S3Config) : String :=
  c.service_name

/-- A last-modified timestamp, already split into calendar fields. -/
structure UTCTime where
  year : Nat
  month : Nat
  day : Nat
  hour : Nat
  minute : Nat
  second : Nat
deriving Repr, DecidableEq

def pad2 (n : Nat) : String :=
  if n < 10 then "0" ++ toString n else toString n

def pad4 (n : Nat) : String :=
  if n < 10 then "000" ++ toString n
  else if n < 100 then "00" ++ toString n
  else if n < 1000 then "0" ++ toString n
  else toString n

/-- `strftime("%Y-%m-%d %H:%M:%S UTC")` on a UTC timestamp. -/
def strftimeUTC (t : UTCTime) : String :=
  pad4 t.year ++ "-" ++ pad2 t.month ++ "-" ++ pad2 t.day ++ " " ++
    pad2 t.hour ++ ":" ++ pad2 t.minute ++ ":" ++ pad2 t.second ++ " UTC"

/-- One record of the backend listing response (`Contents` entry). -/
structure S3Object where
  key : String
  size : Nat
  lastModified : UTCTime
deriving Repr, DecidableEq

/-- The parameters the list handler passes to the single
`list_objects_v2` backend call: bucket, `MaxKeys`, and `Prefix` only
when the prefix argument is non-empty. -/
structure ListParams where
  bucket : String
  maxKeys : Int
  pfx : Option String
deriving Repr, DecidableEq

/-- Successful `list_objects_v2` response: `Contents` (absent modelled
as `[]`, exactly as `response.get('Contents', [])` reads it) and
`IsTruncated`. -/
structure ListResponse where
  contents : List S3Object
  isTruncated : Bool
deriving Repr, DecidableEq

/-- Outcome of the `list_objects_v2` call: the success payload or one of
the exception kinds the handler catches (`NoCredentialsError`,
`ClientError` with code and message, or any other exception). -/
inductive ListOutcome where
  | ok (resp : ListResponse)
  | noCredentials
  | clientError (code msg : String)
  | otherError (msg : String)
deriving Repr, DecidableEq

/-- The parameters the download handler passes to the single
`download_file` backend call. -/
structure DownloadParams where
  bucket : String
  key : String
  localPath : String
deriving Repr, DecidableEq

/-- Outcome of the `download_file` call (with the follow-up
`os.path.getsize` folded into the success payload): success with the
resulting file size, or one of the exception kinds the handler catches. -/
inductive DownloadOutcome where
  | ok (fileSize : Nat)
  | noCredentials
  | clientError (code msg : String)
  | permissionError (msg : String)
  | osError (msg : String)
  | otherError (msg : String)
deriving Repr, DecidableEq

/-- Storage-client events a handler performs, in order: session
acquisition, client construction, and the single backend call. -/
inductive Event where
  | session
  | clientCreate
  | listBucketsCall
  | listObjectsCall (p : ListParams)
  | downloadCall (p : DownloadParams)
deriving Repr, DecidableEq

/-- The not-configured guidance of `list_object_tool.py` line 36. -/
def notConfiguredListText : String :=
  "❌ S3 credentials not configured!\n\nPlease set the following environment variables in your Claude Desktop config:\n• AWS_ACCESS_KEY_ID (your access key)\n• AWS_SECRET_ACCESS_KEY (your secret key)\n• AWS_DEFAULT_REGION (optional, defaults to us-east-1)\n• S3_ENDPOINT_URL (optional, for S3-compatible services like DigitalOcean Spaces)\n\nExamples:\n• AWS S3: Leave S3_ENDPOINT_URL empty\n• DigitalOcean Spaces: S3_ENDPOINT_URL=https://nyc3.digitaloceanspaces.com\n• IBM Cloud: S3_ENDPOINT_URL=https://s3.us-south.cloud-object-storage.appdomain.cloud"

/-- The not-configured guidance of `download_file_tool.py` line 38
(textually identical to the one in the list tool). -/
def notConfiguredDownloadText : String :=
  "❌ S3 credentials not configured!\n\nPlease set the following environment variables in your Claude Desktop config:\n• AWS_ACCESS_KEY_ID (your access key)\n• AWS_SECRET_ACCESS_KEY (your secret key)\n• AWS_DEFAULT_REGION (optional, defaults to us-east-1)\n• S3_ENDPOINT_URL (optional, for S3-compatible services like DigitalOcean Spaces)\n\nExamples:\n• AWS S3: Leave S3_ENDPOINT_URL empty\n• DigitalOcean Spaces: S3_ENDPOINT_URL=https://nyc3.digitaloceanspaces.com\n• IBM Cloud: S3_ENDPOINT_URL=https://s3.us-south.cloud-object-storage.appdomain.cloud"

/-- The `NoCredentialsError` message (same text in both tools). -/
def noCredentialsText : String :=
  "❌ S3 credentials not found!\n\nPlease configure your credentials:\n1. Set AWS_ACCESS_KEY_ID and AWS_SECRET_ACCESS_KEY in Claude Desktop config\n2. For S3-compatible services, also set S3_ENDPOINT_URL\n3. Or configure ~/.aws/credentials (for AWS S3 only)"

/-- Empty-listing diagnostic of `list_object_tool.py` lines 70–75. -/
def emptyListingText (bucket_name pfx : String) : String :=
  let prefix_msg := if pfx != "" then " with prefix '" ++ pfx ++ "'" else ""
  "📁 No objects found in bucket '" ++ bucket_name ++ "'" ++ prefix_msg ++
    ".\n\nThis could mean:\n• The bucket is empty\n• No objects match the prefix filter\n• Your credentials don't have ListBucket permission for this bucket\n• The bucket doesn't exist or you're connected to the wrong region/endpoint"

/-- `ClientError` branching of `list_object_tool.py` lines 119–144. -/
def listClientErrorText (cfg : S3Config) (bucket_name code msg : String) : String :=
  if code == "NoSuchBucket" then
    "❌ Bucket '" ++ bucket_name ++ "' not found!\n\nPlease check:\n• The bucket name is correct\n• The bucket exists in the specified region\n• You're connected to the correct endpoint for " ++ cfg.get_service_name
  else if code == "AccessDenied" then
    "❌ Access denied to bucket '" ++ bucket_name ++ "'!\n\nPlease check that your credentials have the 'ListBucket' permission for this bucket in " ++ cfg.get_service_name ++ "."
  else if code == "InvalidAccessKeyId" || code == "SignatureDoesNotMatch" then
    "❌ Invalid credentials: " ++ msg ++ "\n\nPlease check your AWS_ACCESS_KEY_ID and AWS_SECRET_ACCESS_KEY for " ++ cfg.get_service_name ++ "."
  else
    "❌ " ++ cfg.get_service_name ++ " Error (" ++ code ++ "): " ++ msg ++ "\n\nPlease check your configuration and try again."

/-- Catch-all message of both tools (`except Exception`). -/
def unexpectedErrorText (msg : String) : String :=
  "❌ Unexpected error: " ++ msg ++ "\n\nPlease check the server logs for more details."

/-- Per-object lines of the success rendering, enumerated from 1
(`list_object_tool.py` lines 80–98). -/
def renderObjectLines : Nat → List S3Object → List String
  | _, [] => []
  | i, obj :: rest =>
    (toString i ++ ". **" ++ obj.key ++ "**") ::
    ("   Size: " ++ formatSizeList obj.size) ::
    ("   Modified: " ++ strftimeUTC obj.lastModified) ::
    "" :: renderObjectLines (i + 1) rest

/-- Success rendering of the listing (`list_object_tool.py`
lines 77–105): header, per-object lines, optional truncation note,
joined by newlines. -/
def renderListing (bucket_name : String) (resp : ListResponse) : String :=
  let header := "📁 **Found " ++ toString resp.contents.length ++
    " object(s) in bucket '" ++ bucket_name ++ "':**\n"
  let body := renderObjectLines 1 resp.contents
  let trunc := if resp.isTruncated then
      ["⚠️  **Note:** Results are truncated. There may be more objects in this bucket.",
       "   Use a more specific prefix or increase max_keys to see more results."]
    else []
  String.intercalate "\n" (header :: (body ++ trunc))

/-- Shallow embedding of `list_objects_tool`
(`tools/list_object_tool.py` lines 21–151). The backend parameter maps
the `list_objects_v2` request to its outcome; the second component of
the result is the trace of storage-client events performed. -/
def list_objects_tool (cfg : S3Config) (bucket_name pfx : String) (max_keys : Int)
    (backend : ListParams → ListOutcome) : List TextContent × List Event :=
  if !cfg.is_configured then
    ([⟨"text", notConfiguredListText⟩], [])
  else
    let list_params : ListParams :=
      { bucket := bucket_name
        maxKeys := min max_keys 1000
        pfx := if pfx != "" then some pfx else none }
    let events := [Event.session, Event.clientCreate, Event.listObjectsCall list_params]
    match backend list_params with
    | .ok resp =>
      if resp.contents.isEmpty then
        ([⟨"text", emptyListingText bucket_name pfx⟩], events)
      else
        ([⟨"text", renderListing bucket_name resp⟩], events)
    | .noCredentials => ([⟨"text", noCredentialsText⟩], events)
    | .clientError code msg =>
      ([⟨"text", listClientErrorText cfg bucket_name code msg⟩], events)
    | .otherError msg => ([⟨"text", unexpectedErrorText msg⟩], events)

/-- `ClientError` branching of `download_file_tool.py` lines 107–137. -/
def downloadClientErrorText (cfg : S3Config) (bucket_name object_key code msg : String) :
    String :=
  if code == "NoSuchBucket" then
    "❌ Bucket '" ++ bucket_name ++ "' not found!\n\nPlease check:\n• The bucket name is correct\n• The bucket exists in the specified region\n• You're connected to the correct endpoint for " ++ cfg.get_service_name
  else if code == "NoSuchKey" then
    "❌ Object '" ++ object_key ++ "' not found in bucket '" ++ bucket_name ++ "'!\n\nPlease check:\n• The object key/path is correct\n• The file exists in the bucket\n• You have the correct permissions to access this object"
  else if code == "AccessDenied" then
    "❌ Access denied to '" ++ bucket_name ++ "/" ++ object_key ++ "'!\n\nPlease check that your credentials have the 'GetObject' permission for this object in " ++ cfg.get_service_name ++ "."
  else if code == "InvalidAccessKeyId" || code == "SignatureDoesNotMatch" then
    "❌ Invalid credentials: " ++ msg ++ "\n\nPlease check your AWS_ACCESS_KEY_ID and AWS_SECRET_ACCESS_KEY for " ++ cfg.get_service_name ++ "."
  else
    "❌ " ++ cfg.get_service_name ++ " Error (" ++ code ++ "): " ++ msg ++ "\n\nPlease check your configuration and try again."

/-- `PermissionError` message of `download_file_tool.py` lines 139–144. -/
def localPermissionErrorText (msg : String) : String :=
  "❌ Permission denied writing to Downloads folder!\n\nPlease check:\n• You have write permissions to the Downloads folder\n• The Downloads folder is not read-only\n• No other application is using the file\n\nError: " ++ msg

/-- `OSError` message of `download_file_tool.py` lines 146–151. -/
def localOsErrorText (msg : String) : String :=
  "❌ File system error during download!\n\nPlease check:\n• There's enough disk space available\n• The Downloads folder path is valid\n• You have proper file system permissions\n\nError: " ++ msg

/-- Success message of `download_file_tool.py` lines 90–98. -/
def downloadSuccessText (cfg : S3Config) (bucket_name object_key local_file_path : String)
    (file_size : Nat) : String :=
  "✅ **File downloaded successfully!**\n\n" ++
  "📁 **Source:** `" ++ bucket_name ++ "/" ++ object_key ++ "`\n" ++
  "💾 **Destination:** `" ++ local_file_path ++ "`\n" ++
  "📊 **Size:** " ++ formatSizeDownload file_size ++ "\n" ++
  "🌐 **Storage:** " ++ cfg.get_service_name ++ "\n\n" ++
  "The file has been saved to your Downloads folder and is ready to use."

/-- `get_downloads_folder()` of `download_file_tool.py` lines 161–181:
`home / "Downloads"` on every platform branch. -/
def get_downloads_folder (home : String) : String :=
  home ++ "/Downloads"

/-- Shallow embedding of `download_file_tool`
(`tools/download_file_tool.py` lines 23–158). `home` is `Path.home()`;
`mkdirErr` is the outcome of `os.makedirs` (`some msg` models an
`OSError` raised there, before any storage client exists); the backend
parameter maps the `download_file` request to its outcome. -/
def download_file_tool (cfg : S3Config) (bucket_name object_key : String)
    (local_filename : Option String) (home : String) (mkdirErr : Option String)
    (backend : DownloadParams → DownloadOutcome) : List TextContent × List Event :=
  if !cfg.is_configured then
    ([⟨"text", notConfiguredDownloadText⟩], [])
  else
    let filename := resolveLocalFilename local_filename object_key
    let downloads_folder := get_downloads_folder home
    let local_file_path := osPathJoin downloads_folder filename
    match mkdirErr with
    | some msg => ([⟨"text", localOsErrorText msg⟩], [])
    | none =>
      let dl_params : DownloadParams :=
        { bucket := bucket_name, key := object_key, localPath := local_file_path }
      let events := [Event.session, Event.clientCreate, Event.downloadCall dl_params]
      match backend dl_params with
      | .ok file_size =>
        ([⟨"text", downloadSuccessText cfg bucket_name object_key local_file_path file_size⟩],
         events)
      | .noCredentials => ([⟨"text", noCredentialsText⟩], events)
      | .clientError code msg =>
        ([⟨"text", downloadClientErrorText cfg bucket_name object_key code msg⟩], events)
      | .permissionError msg => ([⟨"text", localPermissionErrorText msg⟩], events)
      | .osError msg => ([⟨"text", localOsErrorText msg⟩], events)
      | .otherError msg => ([⟨"text", unexpectedErrorText msg⟩], events)

/-- Outcome of the `list_buckets` backend operation, for the bucket
handler modelled from the spec. -/
inductive BucketsOutcome where
  | ok (names : List String)
  | failed (msg : String)
deriving Repr, DecidableEq

/-- Modelled from the spec: `list_buckets_tool` lives in
`tools/list_buckets_tool.py`, which is not among the provided sources.
Spec §4.4: if not configured, return the guidance message without any
network call; otherwise acquire a client, list the buckets and render
each returned bucket's name; on failure render a targeted message. -/
def list_buckets_tool (cfg : S3Config) (backend : BucketsOutcome) :
    List TextContent × List Event :=
  if !cfg.is_configured then
    ([⟨"text", notConfiguredListText⟩], [])
  else
    let events := [Event.session, Event.clientCreate, Event.listBucketsCall]
    match backend with
    | .ok names => ([⟨"text", String.intercalate "\n" names⟩], events)
    | .failed msg => ([⟨"text", unexpectedErrorText msg⟩], events)

/-- A registered tool descriptor (`types.Tool`): its name, description,
and the `required` list of its input schema. The per-parameter schema
details (types, defaults, bounds) are declarative strings in the source
and carry no dispatch logic; they are not modelled. -/
structure Tool where
  name : String
  description : String
  required : List String
deriving Repr, DecidableEq

/-- The tool registry returned by `list_tools` (`server_main.py`
lines 40–115). -/
def list_tools : List Tool :=
  [ { name := "test_connection"
      description := "Test MCP S3 server connection"
      required := [] },
    { name := "list_s3_buckets"
      description := "List all S3 buckets in your storage account (supports AWS S3, DigitalOcean Spaces, IBM Cloud Object Storage, and other S3-compatible services)"
      required := [] },
    { name := "list_s3_objects"
      description := "List objects in a specific S3 bucket with optional prefix filtering. Supports AWS S3, DigitalOcean Spaces, IBM Cloud Object Storage, and other S3-compatible services."
      required := ["bucket_name"] },
    { name := "download_s3_file"
      description := "Download a file from S3 storage to the local Downloads folder. Supports AWS S3, DigitalOcean Spaces, IBM Cloud Object Storage, and other S3-compatible services."
      required := ["bucket_name", "object_key"] } ]

/-- The argument mapping of a tool invocation, restricted to the keys
`call_tool` reads; an absent key is `none`. -/
structure Arguments where
  bucket_name : Option String
  pfx : Option String
  max_keys : Option Int
  object_key : Option String
  local_filename : Option String
deriving Repr, DecidableEq

/-- Fixed success message of the `test_connection` branch. -/
def testConnectionText : String :=
  "✅ SUCCESS! MCP S3 Server is working!\n\nConnection established successfully. The server is ready for S3 operations."

/-- Missing `bucket_name` message of the `list_s3_objects` branch. -/
def missingBucketListText : String :=
  "❌ Missing required parameter: bucket_name\n\nPlease provide the name of the bucket to list objects from."

/-- Missing `bucket_name` message of the `download_s3_file` branch. -/
def missingBucketDownloadText : String :=
  "❌ Missing required parameter: bucket_name\n\nPlease provide the name of the bucket containing the file."

/-- Missing `object_key` message of the `download_s3_file` branch. -/
def missingObjectKeyText : String :=
  "❌ Missing required parameter: object_key\n\nPlease provide the key/path of the object in the bucket."

/-- Unknown-tool message of `call_tool` lines 179–186 (the
`"...{name}..."` template after `.format(name=name)`). -/
def unknownToolText (name : String) : String :=
  "❌ Unknown tool: " ++ name ++ "\n\nAvailable tools: test_connection, list_s3_buckets, list_s3_objects, download_s3_file"

/-- The full backend model handed to the dispatcher: one behaviour per
storage operation. -/
structure Backend where
  buckets : BucketsOutcome
  listObjects : ListParams → ListOutcome
  download : DownloadParams → DownloadOutcome

/-- Shallow embedding of the dispatcher `call_tool` (`server_main.py`
lines 121–186): exact-match on the tool name, required-argument checks
for the two parameterised tools, then the handler; unknown names get
the enumerating error. The trace component collects the storage-client
events of the invoked handler (empty when no handler runs). -/
def call_tool (name : String) (arguments : Arguments) (cfg : S3Config)
    (home : String) (mkdirErr : Option String) (backend : Backend) :
    List TextContent × List Event :=
  if name == "test_connection" then
    ([⟨"text", testConnectionText⟩], [])
  else if name == "list_s3_buckets" then
    list_buckets_tool cfg backend.buckets
  else if name == "list_s3_objects" then
    let bucket_name := arguments.bucket_name
    if pyFalsy bucket_name then
      ([⟨"text", missingBucketListText⟩], [])
    else
      let pfx := arguments.pfx.getD ""
      let max_keys := arguments.max_keys.getD 100
      list_objects_tool cfg (bucket_name.getD "") pfx max_keys backend.listObjects
  else if name == "download_s3_file" then
    let bucket_name := arguments.bucket_name
    let object_key := arguments.object_key
    if pyFalsy bucket_name then
      ([⟨"text", missingBucketDownloadText⟩], [])
    else if pyFalsy object_key then
      ([⟨"text", missingObjectKeyText⟩], [])
    else
      download_file_tool cfg (bucket_name.getD "") (object_key.getD "")
        arguments.local_filename home mkdirErr backend.download
  else
    ([⟨"text", unknownToolText name⟩], [])

/-- The exact-match guard set of the dispatcher: the four names for
which `call_tool` has a branch. -/
def dispatchRecognizes (name : String) : Bool :=
  name == "test_connection" || name == "list_s3_buckets" ||
  name == "list_s3_objects" || name == "download_s3_file"

/-! Sample values used to evaluate the embedding at concrete inputs. -/

/-- A configured sample configuration. -/
def sampleCfg : S3Config :=
  { access_key := "AK", secret_key := "SK", region := "us-east-1",
    endpoint_url := none, service_name := "AWS S3" }

/-- An unconfigured sample configuration (both keys empty). -/
def unconfiguredCfg : S3Config :=
  { access_key := "", secret_key := "", region := "us-east-1",
    endpoint_url := none, service_name := "AWS S3" }

/-- A list backend that always returns an empty page. -/
def emptyListBackend : ListParams → ListOutcome :=
  fun _ => .ok { contents := [], isTruncated := false }

/-- A download backend that always succeeds with a 5-byte file. -/
def okDownloadBackend : DownloadParams → DownloadOutcome :=
  fun _ => .ok 5

/-- A full sample backend. -/
def sampleBackend : Backend :=
  { buckets := .ok [], listObjects := emptyListBackend, download := okDownloadBackend }

/-- A sample argument map with every key absent. -/
def noArgs : Arguments :=
  { bucket_name := none, pfx := none, max_keys := none,
    object_key := none, local_filename := none }

/-- `resolveLocalFilename` with no supplied filename: the basename of
the key, or the fallback literal when that basename is empty. -/
theorem resolveLocalFilename_none (object_key : String) :
    resolveLocalFilename none object_key =
      (if osPathBasename object_key = "" then "downloaded_file"
       else osPathBasename object_key) := by
  unfold resolveLocalFilename pyFalsy
  by_cases h : osPathBasename object_key = "" <;> simp [h]

/-- C1, counterexample: invoked with `max_keys = 0`, the single backend
call carries `MaxKeys = 0` (the code computes `min(max_keys, 1000)`),
whereas clamping the supplied value into the range 1–1000 would give 1;
so the claimed lower clamp does not exist. -/
theorem C1_counterexample :
    (list_objects_tool sampleCfg "b" "" 0 emptyListBackend).2 =
      [Event.session, Event.clientCreate,
       Event.listObjectsCall { bucket := "b", maxKeys := 0, pfx := none }] ∧
    max 1 (min (0 : Int) 1000) ≠ 0 := by
  constructor
  · rfl
  · decide

/-- C1 (amended): for every configured configuration, every invocation
of the list handler issues exactly one backend call, and the `MaxKeys`
it carries is `min max_keys 1000` — an upper clamp to the backend
ceiling of 1000 only, with no lower clamp (so `max_keys = 5000` yields
an effective cap of 1000). -/
theorem C1_maxkeys_upper_clamp (cfg : S3Config) (bucket_name pfx : String)
    (max_keys : Int) (backend : ListParams → ListOutcome)
    (h : cfg.is_configured = true) :
    (list_objects_tool cfg bucket_name pfx max_keys backend).2 =
      [Event.session, Event.clientCreate,
       Event.listObjectsCall
         { bucket := bucket_name, maxKeys := min max_keys 1000,
           pfx := if pfx != "" then some pfx else none }] ∧
    min max_keys 1000 ≤ 1000 := by
  refine ⟨?_, min_le_right _ _⟩
  unfold list_objects_tool
  rw [if_neg (by simp [h])]
  dsimp only
  split <;> first | rfl | (split <;> rfl)

/-- C1, witness: `max_keys = 5000` issues exactly one backend call with
an effective cap of 1000. -/
theorem C1_witness :
    min (5000 : Int) 1000 = 1000 ∧
    sampleCfg.is_configured = true ∧
    (list_objects_tool sampleCfg "b" "" 5000 emptyListBackend).2 =
      [Event.session, Event.clientCreate,
       Event.listObjectsCall { bucket := "b", maxKeys := min 5000 1000, pfx := none }] :=
  ⟨by decide, rfl,
    (C1_maxkeys_upper_clamp sampleCfg "b" "" 5000 emptyListBackend rfl).1⟩

/-- C2: the size formatters of the list handler and the download
handler both equal the specification's formula (`n B` below 1024, one
decimal `KB` below 1024², `MB` below 1024³, else `GB`), and the five
example sizes render as the spec states. -/
theorem C2_size_formatting :
    (∀ n, formatSizeList n = formatSizeSpec n) ∧
    (∀ n, formatSizeDownload n = formatSizeSpec n) ∧
    formatSizeList 0 = "0 B" ∧ formatSizeList 1023 = "1023 B" ∧
    formatSizeList 1024 = "1.0 KB" ∧ formatSizeList 1048576 = "1.0 MB" ∧
    formatSizeList 1073741824 = "1.0 GB" ∧
    formatSizeDownload 0 = "0 B" ∧ formatSizeDownload 1023 = "1023 B" ∧
    formatSizeDownload 1024 = "1.0 KB" ∧ formatSizeDownload 1048576 = "1.0 MB" ∧
    formatSizeDownload 1073741824 = "1.0 GB" := by
  refine ⟨fun n => ?_, fun n => ?_, ?_, ?_, ?_, ?_, ?_, ?_, ?_, ?_, ?_, ?_⟩
  · norm_num [formatSizeList, formatSizeSpec]
  · norm_num [formatSizeDownload, formatSizeSpec]
  all_goals decide

/-- C3: invoked without a `local_filename`, the download handler's
single backend call targets the Downloads folder joined with the base
name of the object key, falling back to the literal `downloaded_file`
when that base name is empty. -/
theorem C3_default_filename (cfg : S3Config) (bucket_name object_key home : String)
    (backend : DownloadParams → DownloadOutcome) (h : cfg.is_configured = true) :
    (download_file_tool cfg bucket_name object_key none home none backend).2 =
      [Event.session, Event.clientCreate,
       Event.downloadCall
         { bucket := bucket_name, key := object_key,
           localPath := osPathJoin (get_downloads_folder home)
             (if osPathBasename object_key = "" then "downloaded_file"
              else osPathBasename object_key) }] := by
  unfold download_file_tool
  rw [if_neg (by simp [h]), resolveLocalFilename_none]
  dsimp only
  split <;> rfl

/-- C3, witness: a key ending in a separator (empty basename) resolves
to `downloaded_file`, and a normal key resolves to its basename. -/
theorem C3_witness :
    (download_file_tool sampleCfg "b" "a/b/" none "/home/u" none okDownloadBackend).2 =
      [Event.session, Event.clientCreate,
       Event.downloadCall
         { bucket := "b", key := "a/b/", localPath := "/home/u/Downloads/downloaded_file" }] ∧
    (download_file_tool sampleCfg "b" "a/b/c.txt" none "/home/u" none okDownloadBackend).2 =
      [Event.session, Event.clientCreate,
       Event.downloadCall
         { bucket := "b", key := "a/b/c.txt", localPath := "/home/u/Downloads/c.txt" }] :=
  ⟨(C3_default_filename sampleCfg "b" "a/b/" "/home/u" okDownloadBackend rfl).trans
      (by decide),
   (C3_default_filename sampleCfg "b" "a/b/c.txt" "/home/u" okDownloadBackend rfl).trans
      (by decide)⟩

/-- C4: the registry has exactly 4 descriptors, their names are exactly
`test_connection`, `list_s3_buckets`, `list_s3_objects`,
`download_s3_file`, a name is a dispatcher guard iff it is a registry
name, and every name outside the guard set falls through to the
unknown-tool response — so no descriptor lacks a dispatch branch and no
dispatch branch lacks a descriptor. -/
theorem C4_registry_matches_dispatcher :
    list_tools.length = 4 ∧
    list_tools.map Tool.name =
      ["test_connection", "list_s3_buckets", "list_s3_objects", "download_s3_file"] ∧
    (∀ name, dispatchRecognizes name = true ↔ name ∈ list_tools.map Tool.name) ∧
    (∀ name arguments cfg home mkdirErr backend, dispatchRecognizes name = false →
      call_tool name arguments cfg home mkdirErr backend =
        ([⟨"text", unknownToolText name⟩], [])) := by
  refine ⟨rfl, rfl, fun name => ?_, fun name args cfg home mk be h => ?_⟩
  · simp [dispatchRecognizes, list_tools, or_assoc]
  · simp only [dispatchRecognizes, Bool.or_eq_false_iff, beq_eq_false_iff_ne, ne_eq] at h
    obtain ⟨⟨⟨h1, h2⟩, h3⟩, h4⟩ := h
    simp [call_tool, h1, h2, h3, h4]

/-- C4, witness: the name `foo` is outside the guard set and gets the
unknown-tool response with an empty event trace. -/
theorem C4_witness :
    dispatchRecognizes "foo" = false ∧
    call_tool "foo" noArgs sampleCfg "/home/u" none sampleBackend =
      ([⟨"text", unknownToolText "foo"⟩], []) :=
  ⟨rfl, C4_registry_matches_dispatcher.2.2.2 "foo" noArgs sampleCfg "/home/u" none
    sampleBackend rfl⟩

set_option maxRecDepth 40000 in
/-- C5: with an unconfigured configuration (`is_configured()` false)
both storage-touching handlers return the not-configured guidance text
with an empty storage-event trace (no session, no client, no call); the
two guidance texts are the same string, and it mentions each of the
four recognized environment variables. -/
theorem C5_not_configured (cfg : S3Config) (bucket_name pfx : String) (max_keys : Int)
    (lb : ListParams → ListOutcome) (bucket2 object_key : String)
    (local_filename : Option String) (home : String) (mkdirErr : Option String)
    (db : DownloadParams → DownloadOutcome) (h : cfg.is_configured = false) :
    list_objects_tool cfg bucket_name pfx max_keys lb =
      ([⟨"text", notConfiguredListText⟩], []) ∧
    download_file_tool cfg bucket2 object_key local_filename home mkdirErr db =
      ([⟨"text", notConfiguredDownloadText⟩], []) ∧
    notConfiguredListText = notConfiguredDownloadText ∧
    "AWS_ACCESS_KEY_ID".data <:+: notConfiguredListText.data ∧
    "AWS_SECRET_ACCESS_KEY".data <:+: notConfiguredListText.data ∧
    "AWS_DEFAULT_REGION".data <:+: notConfiguredListText.data ∧
    "S3_ENDPOINT_URL".data <:+: notConfiguredListText.data := by
  refine ⟨?_, ?_, rfl, by decide, by decide, by decide, by decide⟩
  · unfold list_objects_tool
    rw [if_pos (by simp [h])]
  · unfold download_file_tool
    rw [if_pos (by simp [h])]

/-- C5, witness: both handlers on a concrete unconfigured
configuration. -/
theorem C5_witness :
    unconfiguredCfg.is_configured = false ∧
    list_objects_tool unconfiguredCfg "b" "" 100 emptyListBackend =
      ([⟨"text", notConfiguredListText⟩], []) ∧
    download_file_tool unconfiguredCfg "b" "k" none "/home/u" none okDownloadBackend =
      ([⟨"text", notConfiguredDownloadText⟩], []) :=
  ⟨rfl,
   (C5_not_configured unconfiguredCfg "b" "" 100 emptyListBackend "b" "k" none
      "/home/u" none okDownloadBackend rfl).1,
   (C5_not_configured unconfiguredCfg "b" "" 100 emptyListBackend "b" "k" none
      "/home/u" none okDownloadBackend rfl).2.1⟩

/-- C6: an absent or empty required argument makes the dispatcher
return the error naming that parameter, with an empty storage-event
trace (no handler invocation, no client): `bucket_name` for
`list_s3_objects`; `bucket_name`, then `object_key`, for
`download_s3_file`. -/
theorem C6_missing_required (arguments : Arguments) (cfg : S3Config) (home : String)
    (mkdirErr : Option String) (backend : Backend) :
    (pyFalsy arguments.bucket_name = true →
      call_tool "list_s3_objects" arguments cfg home mkdirErr backend =
        ([⟨"text", missingBucketListText⟩], [])) ∧
    (pyFalsy arguments.bucket_name = true →
      call_tool "download_s3_file" arguments cfg home mkdirErr backend =
        ([⟨"text", missingBucketDownloadText⟩], [])) ∧
    (pyFalsy arguments.bucket_name = false → pyFalsy arguments.object_key = true →
      call_tool "download_s3_file" arguments cfg home mkdirErr backend =
        ([⟨"text", missingObjectKeyText⟩], [])) := by
  refine ⟨fun h => ?_, fun h => ?_, fun h1 h2 => ?_⟩
  · simp [call_tool, h]
  · simp [call_tool, h]
  · simp [call_tool, h1, h2]

/-- C6, witness: an argument map with no `bucket_name` (list tool), no
`bucket_name` (download tool), and a present `bucket_name` with an
empty `object_key` (download tool). -/
theorem C6_witness :
    call_tool "list_s3_objects" noArgs sampleCfg "/home/u" none sampleBackend =
      ([⟨"text", missingBucketListText⟩], []) ∧
    call_tool "download_s3_file" noArgs sampleCfg "/home/u" none sampleBackend =
      ([⟨"text", missingBucketDownloadText⟩], []) ∧
    call_tool "download_s3_file" { noArgs with bucket_name := some "b", object_key := some "" }
        sampleCfg "/home/u" none sampleBackend =
      ([⟨"text", missingObjectKeyText⟩], []) :=
  ⟨(C6_missing_required noArgs sampleCfg "/home/u" none sampleBackend).1 rfl,
   (C6_missing_required noArgs sampleCfg "/home/u" none sampleBackend).2.1 rfl,
   (C6_missing_required { noArgs with bucket_name := some "b", object_key := some "" }
      sampleCfg "/home/u" none sampleBackend).2.2 rfl rfl⟩

/-- C7: any tool name that is not exactly one of the four registered
names gets the unknown-tool message — which enumerates all four real
tool names — with an empty storage-event trace (no handler runs). -/
theorem C7_unknown_tool (name : String) (arguments : Arguments) (cfg : S3Config)
    (home : String) (mkdirErr : Option String) (backend : Backend)
    (h : name ∉ (["test_connection", "list_s3_buckets", "list_s3_objects",
                  "download_s3_file"] : List String)) :
    call_tool name arguments cfg home mkdirErr backend =
      ([⟨"text", "❌ Unknown tool: " ++ name ++
          "\n\nAvailable tools: test_connection, list_s3_buckets, list_s3_objects, download_s3_file"⟩],
       []) := by
  simp only [List.mem_cons, List.not_mem_nil, or_false, not_or] at h
  obtain ⟨h1, h2, h3, h4⟩ := h
  simp [call_tool, unknownToolText, h1, h2, h3, h4]

/-- C7, witness: the name `foo` (a case variant of no registered name)
gets the enumerating unknown-tool message. -/
theorem C7_witness :
    call_tool "Test_Connection" noArgs sampleCfg "/home/u" none sampleBackend =
      ([⟨"text", "❌ Unknown tool: Test_Connection\n\nAvailable tools: test_connection, list_s3_buckets, list_s3_objects, download_s3_file"⟩],
       []) :=
  (C7_unknown_tool "Test_Connection" noArgs sampleCfg "/home/u" none sampleBackend
    (by decide)).trans (by decide)

/-- C8: both storage-touching handlers are total converters: for every
configuration, every argument, and every outcome of the storage client
or local filesystem (success, missing credentials, client error of any
code, local permission error, local OS error, or any other exception),
the handler returns exactly one formatted text content — no outcome
escapes as a raised fault to the dispatcher or transport. -/
theorem C8_handlers_never_propagate :
    (∀ cfg bucket_name pfx max_keys backend,
      (list_objects_tool cfg bucket_name pfx max_keys backend).1.length = 1) ∧
    (∀ cfg bucket_name object_key local_filename home mkdirErr backend,
      (download_file_tool cfg bucket_name object_key local_filename home mkdirErr
          backend).1.length = 1) := by
  constructor
  · intro cfg b p k be
    unfold list_objects_tool
    split
    · rfl
    · dsimp only
      split <;> first | rfl | (split <;> rfl)
  · intro cfg b key lf home mk be
    unfold download_file_tool
    split
    · rfl
    · dsimp only
      split
      · rfl
      · split <;> rfl

/-- C9: whenever the single backend call succeeds with an empty
`Contents`, the list handler returns the diagnostic message of
`emptyListingText` — the text naming the four plausible causes (empty
bucket, prefix mismatch, missing ListBucket permission, wrong
bucket/region/endpoint) — not a zero-item success listing. -/
theorem C9_empty_listing (cfg : S3Config) (bucket_name pfx : String) (max_keys : Int)
    (backend : ListParams → ListOutcome) (resp : ListResponse)
    (h : cfg.is_configured = true)
    (hb : backend { bucket := bucket_name, maxKeys := min max_keys 1000,
                    pfx := if pfx != "" then some pfx else none } = .ok resp)
    (hc : resp.contents = []) :
    (list_objects_tool cfg bucket_name pfx max_keys backend).1 =
      [⟨"text", emptyListingText bucket_name pfx⟩] := by
  unfold list_objects_tool
  rw [if_neg (by simp [h])]
  dsimp only
  rw [hb]
  dsimp only
  rw [if_pos (by simp [hc])]

/-- C9, witness: a backend returning an empty page on a concrete
invocation produces the four-cause diagnostic. -/
theorem C9_witness :
    (list_objects_tool sampleCfg "b" "" 100 emptyListBackend).1 =
      [⟨"text", emptyListingText "b" ""⟩] :=
  C9_empty_listing sampleCfg "b" "" 100 emptyListBackend
    { contents := [], isTruncated := false } rfl rfl rfl

/-- C10: supplying `local_filename` as the empty string behaves
identically to omitting it, both at the handler and through the
dispatcher: the empty string is falsy, so the filename falls back to
the basename of the object key (then to `downloaded_file`). -/
theorem C10_empty_local_filename :
    (∀ cfg bucket_name object_key home mkdirErr backend,
      download_file_tool cfg bucket_name object_key (some "") home mkdirErr backend =
        download_file_tool cfg bucket_name object_key none home mkdirErr backend) ∧
    (∀ (arguments : Arguments) (cfg : S3Config) (home : String)
        (mkdirErr : Option String) (backend : Backend),
      call_tool "download_s3_file" { arguments with local_filename := some "" }
          cfg home mkdirErr backend =
        call_tool "download_s3_file" { arguments with local_filename := none }
          cfg home mkdirErr backend) :=
  ⟨fun _ _ _ _ _ _ => rfl, fun _ _ _ _ _ => rfl⟩

end McpS3
